import Mathlib

/-!
Verification of the configuration subsystem of `src/abc_example.py`:
the `Config` value object, the `GuardedConfig` validating wrapper
(property setters guarded by `assert` statements), the
`ConfigWrapper.__repr__` rendering, and the `JsonConfigParser` /
`YamlConfigParser` loaders.

The embedding is shallow: Python dynamic values are an inductive
`PyValue`; each guarded setter is a function from the wrapped state and
the argument to a pair of (raised error or unit, resulting state), so a
failed guard visibly leaves the state unchanged; loaders are functions
from an abstracted read-and-deserialize outcome to `Option Config`,
mirroring the `try ... except Exception: return None` boundary.
-/

/-- Dynamic Python values, as far as the claims need them: the strings and
integers stored in config fields, and `None` (used by `Config(None, None)`
in the loaders). -/
inductive PyValue where
  | str (s : String)
  | int (n : Int)
  | noneV
deriving DecidableEq

/-- True exactly on Python strings, as `isinstance(value, str)`. -/
def PyValue.isStr : PyValue → Bool
  | .str _ => true
  | _ => false

/-- True exactly on Python integers, as `isinstance(value, int)`. -/
def PyValue.isInt : PyValue → Bool
  | .int _ => true
  | _ => false

/-- Python `str()` of a value, used by f-string interpolation in
`ConfigWrapper.__repr__`. -/
def PyValue.pystr : PyValue → String
  | .str s => s
  | .int n => toString n
  | .noneV => "None"

/-- Python `repr()` of a value, used by the dataclass-generated
`Config.__repr__`; for strings without special characters this is the
string wrapped in single quotes. -/
def PyValue.pyrepr : PyValue → String
  | .str s => "\x27" ++ s ++ "\x27"
  | .int n => toString n
  | .noneV => "None"

/-- The `Config` dataclass of `abc_example.py`: fields `ip` and `port`.
The dataclass enforces nothing at construction (the loaders build
`Config(None, None)`), so both fields hold arbitrary dynamic values. -/
structure Config where
  ip : PyValue
  port : PyValue
deriving DecidableEq

/- ### The IP regex

`GuardedConfig._ipv4_regex` is the raw string
`[0-9]{1,3}\.[0-9]{1,3}\.[0-9]{1,3}\.[0-9]{1,3}` and the setter checks it
with `re.match`, which anchors at the start of the string only: it
succeeds whenever SOME prefix of the input is four 1-to-3-digit groups
separated by dots. A backtracking engine finds a match iff a
decomposition exists, so the boolean outcome is the existence, over the
group lengths 1..3, of such a prefix decomposition; `groupThen` models
one `[0-9]{1,3}` atom by trying each of the three lengths. -/

/-- Consume exactly `k` characters, all digits; return the remainder. -/
def takeDigits : Nat → List Char → Option (List Char)
  | 0, cs => some cs
  | _ + 1, [] => none
  | k + 1, c :: cs => if c.isDigit then takeDigits k cs else none

/-- One attempt at `[0-9]{k}` followed by the continuation `next`. -/
def tryGroup (next : List Char → Bool) (k : Nat) (cs : List Char) : Bool :=
  match takeDigits k cs with
  | some r => next r
  | none => false

/-- The regex atom `[0-9]{1,3}` followed by the continuation `next`:
a match exists iff it exists for one of the three group lengths. -/
def groupThen (next : List Char → Bool) (cs : List Char) : Bool :=
  tryGroup next 1 cs || tryGroup next 2 cs || tryGroup next 3 cs

/-- The regex atom `\.` followed by the continuation `next`. -/
def dotThen (next : List Char → Bool) : List Char → Bool
  | c :: cs => c == '.' && next cs
  | [] => false

/-- `re.match(_ipv4_regex, ·)` on the character list: the pattern
consumes a PREFIX of the input; anything may follow the fourth group. -/
def quadMatchList : List Char → Bool :=
  groupThen (dotThen (groupThen (dotThen (groupThen (dotThen (groupThen
    fun _ => true))))))

/-- Full-string variant: the input is EXACTLY four dot-separated
1-to-3-digit groups (what `re.fullmatch` of the same pattern would
accept). Used to state the claims about well-formed dotted quads. -/
def quadFullList : List Char → Bool :=
  groupThen (dotThen (groupThen (dotThen (groupThen (dotThen (groupThen
    List.isEmpty))))))

/-- Truth of `re.match(GuardedConfig._ipv4_regex, s)` on a string. -/
def ipv4_match (s : String) : Bool := quadMatchList s.data

/-- The string is exactly a dotted quad of 1-to-3-digit groups. -/
def ipv4_fullmatch (s : String) : Bool := quadFullList s.data

/- ### GuardedConfig -/

/-- The distinct failure points of the guarded setters, named as the
specification taxonomy names them: `typeError` for the failed
`assert isinstance(...)`, `formatError` for the failed regex assert in
the ip setter, `rangeError` for the failed range assert in the port
setter. -/
inductive SetError where
  | typeError
  | formatError
  | rangeError
deriving DecidableEq

/-- `GuardedConfig._port_min`. -/
def GuardedConfig.port_min : Int := 0

/-- `GuardedConfig._port_max`. -/
def GuardedConfig.port_max : Int := 65535

/-- The `ip` property getter of `GuardedConfig`: delegates to the
wrapped config. -/
def GuardedConfig.getIp (c : Config) : PyValue := c.ip

/-- The `port` property getter of `GuardedConfig`: delegates to the
wrapped config. -/
def GuardedConfig.getPort (c : Config) : PyValue := c.port

/-- The `ip` property setter of `GuardedConfig`, run on wrapped state
`c` with argument `v`. In source order: `assert isinstance(value, str)`;
`assert re.match(self._ipv4_regex, value)`; `self._config.ip = value`.
A failed assert raises before the store, so the state component of the
result is unchanged on failure. -/
def GuardedConfig.setIp (c : Config) (v : PyValue) :
    Except SetError Unit × Config :=
  match v with
  | .str s =>
    if ipv4_match s then (Except.ok (), { c with ip := .str s })
    else (Except.error .formatError, c)
  | _ => (Except.error .typeError, c)

/-- The `port` property setter of `GuardedConfig`, run on wrapped state
`c` with argument `v`. In source order: `assert isinstance(value, int)`;
`assert value in range(self._port_min, self._port_max + 1)`;
`self._config.port = value`. -/
def GuardedConfig.setPort (c : Config) (v : PyValue) :
    Except SetError Unit × Config :=
  match v with
  | .int n =>
    if GuardedConfig.port_min ≤ n ∧ n ≤ GuardedConfig.port_max then
      (Except.ok (), { c with port := .int n })
    else (Except.error .rangeError, c)
  | _ => (Except.error .typeError, c)

/-- The ip field is valid in the sense the guarded setter enforces:
a string accepted by `re.match` against the ipv4 pattern. -/
def validIp : PyValue → Bool
  | .str s => ipv4_match s
  | _ => false

/-- The port field is valid in the sense the guarded setter enforces:
an integer in `[port_min, port_max]`. -/
def validPort : PyValue → Bool
  | .int n => decide (GuardedConfig.port_min ≤ n ∧ n ≤ GuardedConfig.port_max)
  | _ => false

/- ### Rendering -/

/-- `ConfigWrapper.__repr__`:
`f"{self.__class__.__name__}(ip='{self.ip}', port={self.port})"`,
parameterized by the dynamic class name of `self` and the two property
reads. -/
def ConfigWrapper.reprWith (className : String) (ipv portv : PyValue) :
    String :=
  className ++ "(ip=\x27" ++ ipv.pystr ++ "\x27, port=" ++ portv.pystr ++ ")"

/-- `repr(g)` for a `GuardedConfig` `g` wrapping `c`: the inherited
`ConfigWrapper.__repr__` with `self.__class__.__name__ = "GuardedConfig"`
and the two delegating property getters. -/
def GuardedConfig.reprOut (c : Config) : String :=
  ConfigWrapper.reprWith "GuardedConfig" (GuardedConfig.getIp c)
    (GuardedConfig.getPort c)

/-- `repr(c)` for the wrapped `Config` dataclass itself, as generated by
`@dataclass`: `Config(ip=<repr of ip>, port=<repr of port>)`. -/
def Config.dataclassRepr (c : Config) : String :=
  "Config(ip=" ++ c.ip.pyrepr ++ ", port=" ++ c.port.pyrepr ++ ")"

/- ### Loaders

`JsonConfigParser.import_config` / `YamlConfigParser.import_config` both
run `open(path)`, read, deserialize (`json.loads` / `yaml.load`), compare
`json_.keys() != config.__dict__.keys()`, and copy each field with
`setattr(config, key, json_[key])`, all inside
`try ... except Exception: print(...); return None`.

The file system and the deserializer are outside the program, so their
combined outcome is abstracted into `LoadInput`: the open or read raised
(`ioError`), the deserializer raised on malformed text (`parseError`),
the deserializer produced a non-mapping value, whose missing `.keys()`
raises `AttributeError` (`notMapping`), or it produced a key-to-value
mapping (`mapping`, a duplicate-free association list standing for the
Python dict). -/

/-- Abstracted outcome of opening, reading and deserializing the file at
the given path. -/
inductive LoadInput where
  | ioError
  | parseError
  | notMapping
  | mapping (entries : List (String × PyValue))
deriving DecidableEq

/-- The Python exceptions that can be raised inside the loader body. -/
inductive PyExc where
  | ioErr
  | parseErr
  | attrErr
  | keyErr
deriving DecidableEq

/-- Python dict-view equality `json_.keys() == config.__dict__.keys()`
where `config = Config(None, None)`: dict key views compare as sets, and
the fresh instance dict has exactly the keys `ip` and `port`. -/
def keysMatchIpPort (ks : List String) : Bool :=
  ks.all (fun k => k == "ip" || k == "port") &&
    ks.contains "ip" && ks.contains "port"

/-- The body of `JsonConfigParser.import_config` (everything inside the
`try`), which may raise: open and read (`ioError` input raises), build
`Config(None, None)`, deserialize (`parseError` raises; a non-mapping
result makes `.keys()` raise), `return None` when the key sets differ,
else copy both fields with `json_[key]` lookups (which cannot raise once
the key sets match, but `keyErr` models the lookup fault faithfully). -/
def JsonConfigParser.import_config_body (inp : LoadInput) :
    Except PyExc (Option Config) :=
  match inp with
  | .ioError => Except.error .ioErr
  | .parseError => Except.error .parseErr
  | .notMapping => Except.error .attrErr
  | .mapping m =>
    if keysMatchIpPort (m.map Prod.fst) then
      match m.lookup "ip", m.lookup "port" with
      | some ipv, some portv => Except.ok (some ⟨ipv, portv⟩)
      | _, _ => Except.error .keyErr
    else Except.ok none

/-- `JsonConfigParser.import_config`: the body wrapped in
`except Exception as e: print(...); return None`, so every raised
exception becomes the sentinel `none`. -/
def JsonConfigParser.import_config (inp : LoadInput) : Option Config :=
  match JsonConfigParser.import_config_body inp with
  | Except.ok r => r
  | Except.error _ => none

/-- The body of `YamlConfigParser.import_config`: identical control flow
to the JSON one, with `yaml.load` in place of `json.loads` (both are
abstracted into `LoadInput`). -/
def YamlConfigParser.import_config_body (inp : LoadInput) :
    Except PyExc (Option Config) :=
  match inp with
  | .ioError => Except.error .ioErr
  | .parseError => Except.error .parseErr
  | .notMapping => Except.error .attrErr
  | .mapping m =>
    if keysMatchIpPort (m.map Prod.fst) then
      match m.lookup "ip", m.lookup "port" with
      | some ipv, some portv => Except.ok (some ⟨ipv, portv⟩)
      | _, _ => Except.error .keyErr
    else Except.ok none

/-- `YamlConfigParser.import_config`: the body wrapped in
`except Exception as e: print(...); return None`. -/
def YamlConfigParser.import_config (inp : LoadInput) : Option Config :=
  match YamlConfigParser.import_config_body inp with
  | Except.ok r => r
  | Except.error _ => none

/- ### Helper lemmas about the regex model -/

theorem takeDigits_append (k : Nat) (cs r t : List Char)
    (h : takeDigits k cs = some r) :
    takeDigits k (cs ++ t) = some (r ++ t) := by
  induction k generalizing cs with
  | zero =>
    simp only [takeDigits, Option.some.injEq] at h
    subst h
    simp [takeDigits]
  | succ k ih =>
    cases cs with
    | nil => simp [takeDigits] at h
    | cons c cs =>
      simp only [takeDigits, List.cons_append] at h ⊢
      by_cases hd : c.isDigit
      · simp only [hd, if_true] at h ⊢
        exact ih cs h
      · simp [hd] at h

theorem tryGroup_append (next1 next2 : List Char → Bool) (t : List Char)
    (hnext : ∀ r, next1 r = true → next2 (r ++ t) = true)
    (k : Nat) (cs : List Char) (h : tryGroup next1 k cs = true) :
    tryGroup next2 k (cs ++ t) = true := by
  unfold tryGroup at h ⊢
  cases hd : takeDigits k cs with
  | none => rw [hd] at h; exact absurd h (by simp)
  | some r =>
    rw [hd] at h
    rw [takeDigits_append k cs r t hd]
    exact hnext r h

theorem groupThen_append (next1 next2 : List Char → Bool) (t : List Char)
    (hnext : ∀ r, next1 r = true → next2 (r ++ t) = true)
    (cs : List Char) (h : groupThen next1 cs = true) :
    groupThen next2 (cs ++ t) = true := by
  unfold groupThen at h ⊢
  simp only [Bool.or_eq_true] at h ⊢
  rcases h with (h | h) | h
  · exact Or.inl (Or.inl (tryGroup_append next1 next2 t hnext 1 cs h))
  · exact Or.inl (Or.inr (tryGroup_append next1 next2 t hnext 2 cs h))
  · exact Or.inr (tryGroup_append next1 next2 t hnext 3 cs h)

theorem dotThen_append (next1 next2 : List Char → Bool) (t : List Char)
    (hnext : ∀ r, next1 r = true → next2 (r ++ t) = true)
    (cs : List Char) (h : dotThen next1 cs = true) :
    dotThen next2 (cs ++ t) = true := by
  cases cs with
  | nil => simp [dotThen] at h
  | cons c cs =>
    simp only [dotThen, List.cons_append, Bool.and_eq_true] at h ⊢
    exact ⟨h.1, hnext cs h.2⟩

/-- A full-pattern match followed by arbitrary extra characters is still
accepted by the prefix-matching `re.match` semantics. -/
theorem quadFull_match_append (cs t : List Char)
    (h : quadFullList cs = true) : quadMatchList (cs ++ t) = true := by
  unfold quadFullList at h
  unfold quadMatchList
  refine groupThen_append _ _ t ?_ cs h
  intro r1 h1
  refine dotThen_append _ _ t ?_ r1 h1
  intro r2 h2
  refine groupThen_append _ _ t ?_ r2 h2
  intro r3 h3
  refine dotThen_append _ _ t ?_ r3 h3
  intro r4 h4
  refine groupThen_append _ _ t ?_ r4 h4
  intro r5 h5
  refine dotThen_append _ _ t ?_ r5 h5
  intro r6 h6
  refine groupThen_append _ _ t ?_ r6 h6
  intro r7 _
  rfl

/-- On strings: an exact dotted quad with any suffix appended passes the
setter's `re.match` check. -/
theorem ipv4_fullmatch_prefix (p rest : String)
    (h : ipv4_fullmatch p = true) : ipv4_match (p ++ rest) = true := by
  unfold ipv4_match
  rw [String.data_append]
  exact quadFull_match_append p.data rest.data h

/-- An exact dotted quad passes the setter's `re.match` check. -/
theorem ipv4_fullmatch_match (s : String)
    (h : ipv4_fullmatch s = true) : ipv4_match s = true := by
  have := ipv4_fullmatch_prefix s "" h
  simpa using this

/- ### Claim theorems -/

/-- C1: for every string not accepted by the `re.match` check against
the dotted-quad pattern (e.g. "localhost", "1.2.3"), `setIp` on the
validating wrapper fails with `FormatError` and the wrapped config is
left unchanged. -/
theorem setIp_rejects_bad_format (c : Config) (s : String)
    (h : ipv4_match s = false) :
    GuardedConfig.setIp c (.str s) = (Except.error SetError.formatError, c) := by
  simp [GuardedConfig.setIp, h]

theorem setIp_rejects_bad_format_witness :
    (ipv4_match "localhost" = false ∧
      GuardedConfig.setIp ⟨.str "0.0.0.0", .int 0⟩ (.str "localhost") =
        (Except.error SetError.formatError, ⟨.str "0.0.0.0", .int 0⟩)) ∧
    (ipv4_match "1.2.3" = false ∧
      GuardedConfig.setIp ⟨.str "0.0.0.0", .int 0⟩ (.str "1.2.3") =
        (Except.error SetError.formatError, ⟨.str "0.0.0.0", .int 0⟩)) :=
  ⟨⟨by decide, setIp_rejects_bad_format ⟨.str "0.0.0.0", .int 0⟩ "localhost"
      (by decide)⟩,
   ⟨by decide, setIp_rejects_bad_format ⟨.str "0.0.0.0", .int 0⟩ "1.2.3"
      (by decide)⟩⟩

/-- C2: for every integer, `setPort` on the validating wrapper succeeds
and delegates the store exactly when the value is in [0, 65535]; outside
that range it fails with `RangeError` and leaves the wrapped config
unchanged. -/
theorem setPort_range_behavior (c : Config) (n : Int) :
    GuardedConfig.setPort c (.int n) =
      if 0 ≤ n ∧ n ≤ 65535 then (Except.ok (), { c with port := .int n })
      else (Except.error SetError.rangeError, c) := by
  rfl

/-- C3: a non-string argument to `setIp` and a non-integer argument to
`setPort` fail with `TypeError` with the wrapped config unchanged; the
result is `TypeError` (never `FormatError` or `RangeError`) because the
`isinstance` assert runs before the format or range assert. -/
theorem setters_type_check_first :
    (∀ (c : Config) (v : PyValue), v.isStr = false →
      GuardedConfig.setIp c v = (Except.error SetError.typeError, c)) ∧
    (∀ (c : Config) (v : PyValue), v.isInt = false →
      GuardedConfig.setPort c v = (Except.error SetError.typeError, c)) := by
  constructor
  · intro c v h
    cases v with
    | str s => simp [PyValue.isStr] at h
    | int n => rfl
    | noneV => rfl
  · intro c v h
    cases v with
    | int n => simp [PyValue.isInt] at h
    | str s => rfl
    | noneV => rfl

theorem setters_type_check_first_witness :
    (PyValue.isStr (.int 5) = false ∧
      GuardedConfig.setIp ⟨.noneV, .noneV⟩ (.int 5) =
        (Except.error SetError.typeError, ⟨.noneV, .noneV⟩)) ∧
    (PyValue.isInt (.str "80") = false ∧
      GuardedConfig.setPort ⟨.noneV, .noneV⟩ (.str "80") =
        (Except.error SetError.typeError, ⟨.noneV, .noneV⟩)) :=
  ⟨⟨rfl, setters_type_check_first.1 ⟨.noneV, .noneV⟩ (.int 5) rfl⟩,
   ⟨rfl, setters_type_check_first.2 ⟨.noneV, .noneV⟩ (.str "80") rfl⟩⟩

/-- C4: for every string that is exactly four 1-to-3-digit groups
separated by dots (regardless of numeric range), `setIp` succeeds, a
subsequent `getIp` through the wrapper returns exactly that string, and
the wrapper read agrees with reading the wrapped config's `ip` field
directly. -/
theorem setIp_getIp_roundtrip (c : Config) (s : String)
    (h : ipv4_fullmatch s = true) :
    GuardedConfig.setIp c (.str s) = (Except.ok (), { c with ip := .str s }) ∧
    GuardedConfig.getIp { c with ip := .str s } = .str s ∧
    GuardedConfig.getIp { c with ip := .str s } =
      Config.ip { c with ip := .str s } := by
  refine ⟨?_, rfl, rfl⟩
  simp [GuardedConfig.setIp, ipv4_fullmatch_match s h]

theorem setIp_getIp_roundtrip_witness :
    ipv4_fullmatch "999.999.999.999" = true ∧
    (GuardedConfig.setIp ⟨.noneV, .int 80⟩ (.str "999.999.999.999") =
        (Except.ok (), ⟨.str "999.999.999.999", .int 80⟩) ∧
      GuardedConfig.getIp ⟨.str "999.999.999.999", .int 80⟩ =
        .str "999.999.999.999" ∧
      GuardedConfig.getIp ⟨.str "999.999.999.999", .int 80⟩ =
        Config.ip ⟨.str "999.999.999.999", .int 80⟩) :=
  ⟨by decide, setIp_getIp_roundtrip ⟨.noneV, .int 80⟩ "999.999.999.999"
    (by decide)⟩

/-- C5: invariant of the validating wrapper: whenever `setIp` or
`setPort` returns successfully, the wrapped config's corresponding
field satisfies the validity predicate the setter enforces (the ip is a
string passing the `re.match` pattern check; the port is an integer in
[0, 65535]). -/
theorem successful_set_establishes_validity :
    (∀ (c : Config) (v : PyValue) (r : Unit) (c' : Config),
      GuardedConfig.setIp c v = (Except.ok r, c') → validIp c'.ip = true) ∧
    (∀ (c : Config) (v : PyValue) (r : Unit) (c' : Config),
      GuardedConfig.setPort c v = (Except.ok r, c') →
        validPort c'.port = true) := by
  constructor
  · intro c v r c' h
    cases v with
    | str s =>
      simp only [GuardedConfig.setIp] at h
      split at h
      · next hm =>
        simp only [Prod.mk.injEq] at h
        rw [← h.2]
        simpa [validIp] using hm
      · next hm => simp at h
    | int n => simp [GuardedConfig.setIp] at h
    | noneV => simp [GuardedConfig.setIp] at h
  · intro c v r c' h
    cases v with
    | int n =>
      simp only [GuardedConfig.setPort] at h
      split at h
      · next hin =>
        simp only [Prod.mk.injEq] at h
        rw [← h.2]
        simpa [validPort] using hin
      · next hout => simp at h
    | str s => simp [GuardedConfig.setPort] at h
    | noneV => simp [GuardedConfig.setPort] at h

theorem successful_set_establishes_validity_witness :
    validIp (Config.mk (PyValue.str "1.2.3.4") PyValue.noneV).ip = true ∧
    validPort (Config.mk PyValue.noneV (PyValue.int 80)).port = true :=
  ⟨successful_set_establishes_validity.1 ⟨.noneV, .noneV⟩ (.str "1.2.3.4") ()
      ⟨.str "1.2.3.4", .noneV⟩ rfl,
   successful_set_establishes_validity.2 ⟨.noneV, .noneV⟩ (.int 80) ()
      ⟨.noneV, .int 80⟩ rfl⟩

/-- C6: no exception raised inside the loader bodies escapes
`import_config`: whatever exception the body raises (I/O error on open
or read, parse error in the deserializer, attribute or key lookup
faults), the `except Exception` boundary converts it to the sentinel
`none`, for both the JSON and the YAML loader. -/
theorem import_config_catches_all :
    (∀ (inp : LoadInput) (e : PyExc),
      JsonConfigParser.import_config_body inp = Except.error e →
      JsonConfigParser.import_config inp = none) ∧
    (∀ (inp : LoadInput) (e : PyExc),
      YamlConfigParser.import_config_body inp = Except.error e →
      YamlConfigParser.import_config inp = none) := by
  constructor
  · intro inp e h
    simp [JsonConfigParser.import_config, h]
  · intro inp e h
    simp [YamlConfigParser.import_config, h]

theorem import_config_catches_all_witness :
    (JsonConfigParser.import_config_body .ioError = Except.error .ioErr ∧
      JsonConfigParser.import_config .ioError = none) ∧
    (YamlConfigParser.import_config_body .parseError = Except.error .parseErr ∧
      YamlConfigParser.import_config .parseError = none) :=
  ⟨⟨rfl, import_config_catches_all.1 .ioError .ioErr rfl⟩,
   ⟨rfl, import_config_catches_all.2 .parseError .parseErr rfl⟩⟩

/-- C7: whenever the deserialized mapping's key set is not exactly
`{ip, port}` (any extra or missing key), `import_config` returns the
failure sentinel `none` and no partially populated `Config` reaches the
caller, for both loaders. -/
theorem import_config_schema_mismatch (m : List (String × PyValue))
    (h : keysMatchIpPort (m.map Prod.fst) = false) :
    JsonConfigParser.import_config (.mapping m) = none ∧
    YamlConfigParser.import_config (.mapping m) = none := by
  constructor
  · simp [JsonConfigParser.import_config, JsonConfigParser.import_config_body, h]
  · simp [YamlConfigParser.import_config, YamlConfigParser.import_config_body, h]

theorem import_config_schema_mismatch_witness :
    keysMatchIpPort
      ([("ip", PyValue.str "1.2.3.4"), ("port", PyValue.int 80),
        ("extra", PyValue.int 1)].map Prod.fst) = false ∧
    (JsonConfigParser.import_config (.mapping
        [("ip", PyValue.str "1.2.3.4"), ("port", PyValue.int 80),
         ("extra", PyValue.int 1)]) = none ∧
      YamlConfigParser.import_config (.mapping
        [("ip", PyValue.str "1.2.3.4"), ("port", PyValue.int 80),
         ("extra", PyValue.int 1)]) = none) :=
  ⟨by decide, import_config_schema_mismatch
    [("ip", PyValue.str "1.2.3.4"), ("port", PyValue.int 80),
     ("extra", PyValue.int 1)] (by decide)⟩

/-- C8: when the deserialized mapping's key set is exactly `{ip, port}`,
the JSON loader returns a `Config` whose fields are the mapping's values
verbatim, whatever those values are — no coercion, and no validation at
the loader layer. -/
theorem import_config_copies_verbatim (m : List (String × PyValue))
    (ipv portv : PyValue)
    (hip : m.lookup "ip" = some ipv) (hport : m.lookup "port" = some portv)
    (hk : keysMatchIpPort (m.map Prod.fst) = true) :
    JsonConfigParser.import_config (.mapping m) = some ⟨ipv, portv⟩ := by
  simp [JsonConfigParser.import_config, JsonConfigParser.import_config_body,
    hk, hip, hport]

theorem import_config_copies_verbatim_witness :
    ([("ip", PyValue.str "1.2.3.4"), ("port", PyValue.int 80)].lookup
        "ip" = some (PyValue.str "1.2.3.4")) ∧
    ([("ip", PyValue.str "1.2.3.4"), ("port", PyValue.int 80)].lookup
        "port" = some (PyValue.int 80)) ∧
    keysMatchIpPort
      ([("ip", PyValue.str "1.2.3.4"), ("port", PyValue.int 80)].map
        Prod.fst) = true ∧
    JsonConfigParser.import_config (.mapping
        [("ip", PyValue.str "1.2.3.4"), ("port", PyValue.int 80)]) =
      some ⟨PyValue.str "1.2.3.4", PyValue.int 80⟩ :=
  ⟨rfl, rfl, by decide, import_config_copies_verbatim
    [("ip", PyValue.str "1.2.3.4"), ("port", PyValue.int 80)]
    (PyValue.str "1.2.3.4") (PyValue.int 80) rfl rfl (by decide)⟩

/-- C9 (counterexample): the claim says rendering the wrapper reproduces
the UNDERLYING value object's class-name-qualified representation, but
`ConfigWrapper.__repr__` interpolates `self.__class__.__name__`, the
concrete class of the wrapper itself; for a `GuardedConfig` wrapping a
`Config(ip="1.2.3.4", port=80)` the rendering starts with
"GuardedConfig(", not with "Config(" as the wrapped dataclass's own repr
does. -/
theorem reprOut_ne_wrapped_repr :
    ¬ (GuardedConfig.reprOut ⟨PyValue.str "1.2.3.4", PyValue.int 80⟩ =
       Config.dataclassRepr ⟨PyValue.str "1.2.3.4", PyValue.int 80⟩) := by
  decide

/-- C9 (amended): rendering the wrapper produces
`GuardedConfig(ip='<ip>', port=<port>)` — the WRAPPER's own concrete
class name — where ip and port are the wrapped config's current field
values read through the delegating getters. -/
theorem reprOut_uses_wrapper_class_name (s : String) (n : Int) :
    GuardedConfig.reprOut ⟨.str s, .int n⟩ =
      "GuardedConfig(ip=\x27" ++ s ++ "\x27, port=" ++ toString n ++ ")" := by
  rfl

/-- C10: the regex check is anchored only at the start of the string, so
for every string that begins with an exact dotted quad and continues
with arbitrary extra characters, `setIp` succeeds and stores the ENTIRE
string verbatim in the wrapped config. -/
theorem setIp_accepts_quad_prefix (c : Config) (p rest : String)
    (h : ipv4_fullmatch p = true) :
    GuardedConfig.setIp c (.str (p ++ rest)) =
      (Except.ok (), { c with ip := .str (p ++ rest) }) := by
  simp [GuardedConfig.setIp, ipv4_fullmatch_prefix p rest h]

theorem setIp_accepts_quad_prefix_witness :
    ipv4_fullmatch "1.2.3.4" = true ∧
    GuardedConfig.setIp ⟨.noneV, .noneV⟩ (.str ("1.2.3.4" ++ ".5")) =
      (Except.ok (), ⟨.str ("1.2.3.4" ++ ".5"), .noneV⟩) :=
  ⟨by decide, setIp_accepts_quad_prefix ⟨.noneV, .noneV⟩ "1.2.3.4" ".5"
    (by decide)⟩
